import Mathlib

/-!
Shallow embedding of the conversational dialogue manager in
`app/services/improved_chatbot.py`, together with theorems checking the
natural-language specification against it.  External collaborators (the
OpenAI client and the relational store) are modelled as explicit oracle
parameters; every deterministic fallback path is translated directly
from the source.
-/

namespace WebApi

/-- Char-list prefix test. -/
def charsPre : List Char → List Char → Bool
  | [], _ => true
  | _ :: _, [] => false
  | a :: as, b :: bs => a == b && charsPre as bs

/-- Char-list contiguous-sublist test. -/
def charsSub (n : List Char) : List Char → Bool
  | [] => n.isEmpty
  | c :: t => charsPre n (c :: t) || charsSub n t

/-- Python substring test: `needle in hay` on strings. -/
def strContains (needle hay : String) : Bool :=
  charsSub needle.toList hay.toList

/-- Python char containment: `c in s`. -/
def containsChar (c : Char) (s : String) : Bool :=
  s.toList.contains c

/-- Python `str.lower()` (char-by-char lowercasing; equals
`String.toLower` but stated over the char list so that concrete
evaluation proceeds by kernel reduction). -/
def pyLower (s : String) : String :=
  String.mk (s.toList.map Char.toLower)

/-- Python truthiness of an `Optional[str]`: `None` and `""` are falsy. -/
def pyTruthy : Option String → Bool
  | none => false
  | some s => !s.isEmpty

/-- Python `a and b` on optional strings: returns `a` when falsy, else `b`. -/
def pyAnd (a b : Option String) : Option String :=
  if pyTruthy a then b else a

/-- Python `a or b` on optional strings: returns `a` when truthy, else `b`. -/
def pyOr (a b : Option String) : Option String :=
  if pyTruthy a then a else b

/-- `{min, max}` price bounds (exact rational arithmetic models the
numeric values the code computes). -/
structure PriceRange where
  lo : ℚ
  hi : ℚ
  deriving Repr, DecidableEq

/-- `SlotFillingState` dataclass: partial product-search criteria. -/
structure SlotFillingState where
  category : Option String := none
  style : Option String := none
  color : Option String := none
  price_range : Option PriceRange := none
  additional_attributes : List (String × String) := []
  is_complete : Bool := false
  deriving Repr, DecidableEq

/-- `SlotFillingState.check_completeness`:
`bool(self.category and (self.style or self.color))`. -/
def SlotFillingState.check_completeness (s : SlotFillingState) : Bool :=
  pyTruthy (pyAnd s.category (pyOr s.style s.color))

/-- Product snapshot row, as produced by `_search_products_with_slots`. -/
structure Product where
  ProductID : Nat
  Name : String := "Product"
  Description : String := ""
  Price : ℚ := 0
  Stock : Nat := 0
  Color : String := "N/A"
  Style : String := "N/A"
  CategoryID : Nat := 1
  deriving Repr, DecidableEq

/-- `{intent, confidence}` classification outcome (entities are always
the empty mapping on the fallback path and are omitted). -/
structure IntentResult where
  intent : String
  confidence : ℚ
  deriving Repr, DecidableEq

/-- A digit character occurs in the message (the `re.search` of a
numeric token in `_fallback_intent_classification`). -/
def hasDigit (s : String) : Bool :=
  s.toList.any Char.isDigit

/-- `_fallback_intent_classification`: rule-based intent classification
(`(pyLower message)` stands for the `message_lower` local of the source). -/
def fallback_intent_classification (message : String) : IntentResult :=
  if strContains "cart" (pyLower message) || strContains "basket" (pyLower message) then
    if strContains "add" (pyLower message) || strContains "put" (pyLower message) then
      { intent := "add_to_cart", confidence := 8/10 }
    else if strContains "remove" (pyLower message) || strContains "delete" (pyLower message) then
      { intent := "remove_from_cart", confidence := 8/10 }
    else
      { intent := "view_cart", confidence := 8/10 }
  else if (strContains "product" (pyLower message) || strContains "item" (pyLower message))
      && hasDigit message then
    { intent := "product_view", confidence := 8/10 }
  else if strContains "find" (pyLower message) || strContains "search" (pyLower message)
      || strContains "looking" (pyLower message) || strContains "want" (pyLower message)
      || strContains "need" (pyLower message) || strContains "show" (pyLower message) then
    { intent := "search_products", confidence := 8/10 }
  else
    { intent := "friendly_chat", confidence := 7/10 }

/-- The spec's description of the fallback classifier, rendered as a
priority-ordered rule table: first condition that fires wins. -/
def claimIntentRules (message : String) : List (Bool × IntentResult) :=
  [ ((strContains "cart" (pyLower message) || strContains "basket" (pyLower message))
      && (strContains "add" (pyLower message) || strContains "put" (pyLower message)),
     { intent := "add_to_cart", confidence := 8/10 }),
    ((strContains "cart" (pyLower message) || strContains "basket" (pyLower message))
      && (strContains "remove" (pyLower message) || strContains "delete" (pyLower message)),
     { intent := "remove_from_cart", confidence := 8/10 }),
    (strContains "cart" (pyLower message) || strContains "basket" (pyLower message),
     { intent := "view_cart", confidence := 8/10 }),
    ((strContains "product" (pyLower message) || strContains "item" (pyLower message))
      && hasDigit message,
     { intent := "product_view", confidence := 8/10 }),
    ([strContains "find" (pyLower message), strContains "search" (pyLower message),
      strContains "looking" (pyLower message), strContains "want" (pyLower message),
      strContains "need" (pyLower message), strContains "show" (pyLower message)].any id,
     { intent := "search_products", confidence := 8/10 }) ]

/-- Spec-side classifier: first firing rule, else `friendly_chat` at 0.7. -/
def claimIntentOf (message : String) : IntentResult :=
  match (claimIntentRules message).find? (fun r => r.1) with
  | some r => r.2
  | none => { intent := "friendly_chat", confidence := 7/10 }

/-- `self.category_mapping`: category id to keyword list. -/
def category_mapping : List (Nat × List String) :=
  [ (1, ["shirt", "top", "blouse", "tee", "t-shirt", "polo", "tank"]),
    (2, ["pants", "trousers", "jeans", "bottoms", "shorts", "skirt"]),
    (3, ["dress", "gown", "evening wear", "sundress"]),
    (4, ["jacket", "coat", "blazer", "hoodie", "sweater", "cardigan", "outerwear"]),
    (5, ["shoes", "sneakers", "boots", "heels", "sandals", "footwear"]),
    (6, ["bag", "purse", "handbag", "backpack", "watch", "jewelry", "accessories"]) ]

/-- `self.style_options`. -/
def style_options : List String :=
  ["casual", "formal", "smart casual", "trendy", "classic", "elegant", "sport", "basic"]

/-- `self.color_options`. -/
def color_options : List String :=
  ["black", "white", "blue", "red", "green", "gray", "brown", "pink", "yellow", "purple"]

/-- Partial attribute map produced by the attribute extractor. -/
structure Attributes where
  category : Option String := none
  style : Option String := none
  color : Option String := none
  price_range : Option PriceRange := none
  deriving Repr, DecidableEq

/-- Numeric value of a digit character. -/
def digitVal (c : Char) : Nat := c.toNat - 48

/-- Value of a digit run, most significant digit first. -/
def natOfDigits (ds : List Char) : Nat :=
  ds.foldl (fun a c => a * 10 + digitVal c) 0

/-- The first maximal run of digit characters, as found by
`re.search` with a digits pattern: earliest starting digit, greedy run. -/
def firstDigitRun : List Char → Option (List Char)
  | [] => none
  | c :: t => if c.isDigit then some (c :: t.takeWhile Char.isDigit) else firstDigitRun t

/-- `_fallback_extract_attributes`: keyword/regex attribute extraction.
The category loop keeps the first matching keyword of the last matching
category id (the inner `break` leaves the outer loop running); color and
style keep the first match of their fixed lists; the price is the first
numeric run, scaled by 1000 when the letter k occurs anywhere in the
lowercased message, widened to the ±20 percent range. -/
def fallback_extract_attributes (message : String) : Attributes :=
  let cat := category_mapping.foldl
    (fun acc kw =>
      match kw.2.find? (fun k => strContains k (pyLower message)) with
      | some k => some k
      | none => acc)
    none
  let col := color_options.find? (fun c => strContains c (pyLower message))
  let sty := style_options.find? (fun s => strContains s (pyLower message))
  let pr :=
    match firstDigitRun (pyLower message).toList with
    | none => none
    | some ds =>
        let p0 : ℚ := natOfDigits ds
        let p : ℚ := if containsChar 'k' (pyLower message) then p0 * 1000 else p0
        some { lo := p * 8 / 10, hi := p * 12 / 10 }
  { category := cat, style := sty, color := col, price_range := pr }

/-- Whether the first numeric run of the char list is immediately
followed by the letter k (the reading of "trailing k" in the claim). -/
def firstRunTrailingK : List Char → Bool
  | [] => false
  | c :: t =>
      if c.isDigit then (t.dropWhile Char.isDigit).head? == some 'k'
      else firstRunTrailingK t

/-- Point value the claim predicts for a message whose first numeric run
is `ds`: ×1000 exactly when the token has a trailing k. -/
def claimPriceValue (message : String) (ds : List Char) : ℚ :=
  if firstRunTrailingK (pyLower message).toList then (natOfDigits ds : ℚ) * 1000
  else (natOfDigits ds : ℚ)

/-- The claim C4 as stated: the point value is scaled by 1000 exactly
when the numeric token itself has a trailing k. -/
def C4Stated : Prop :=
  ∀ (message : String) (ds : List Char),
    firstDigitRun (pyLower message).toList = some ds →
    (fallback_extract_attributes message).price_range =
      some { lo := (claimPriceValue message ds) * 8 / 10,
             hi := (claimPriceValue message ds) * 12 / 10 }

/-- The `ordinals` dict of `_resolve_product_reference`, in insertion
order (word, zero-based position). -/
def ordinals : List (String × Nat) :=
  [("first", 0), ("1st", 0), ("second", 1), ("2nd", 1), ("third", 2),
   ("3rd", 2), ("fourth", 3), ("4th", 3), ("fifth", 4), ("5th", 4)]

/-- Attribute pass of `_resolve_product_reference`: first product whose
lowercased color or style occurs in the message. -/
def attrMatchScan (ml : String) (shown : List Product) : Option Nat :=
  (shown.find? (fun p =>
    strContains (pyLower p.Color) ml || strContains (pyLower p.Style) ml)).map
    Product.ProductID

/-- The ordinal loop of `_resolve_product_reference`: first dict entry
whose word occurs in the message with an in-bounds position returns that
position's product id; falling off the list runs the attribute pass. -/
def ordinalScan (ml : String) (shown : List Product) : List (String × Nat) → Option Nat
  | [] => attrMatchScan ml shown
  | (w, i) :: rest =>
      if strContains w ml && decide (i < shown.length) then
        (shown[i]?).map Product.ProductID
      else ordinalScan ml shown rest

/-- `_resolve_product_reference`: ordinal words first, then
color/style substrings, `none` when the product list is empty or
nothing matches. -/
def _resolve_product_reference (message : String) (shown : List Product) : Option Nat :=
  if shown.isEmpty then none
  else ordinalScan (pyLower message) shown ordinals

/-- Ordinal vocabulary as the claim states it: both spellings per
position 0–4. -/
def claimOrdinals : List (List String × Nat) :=
  [(["first", "1st"], 0), (["second", "2nd"], 1), (["third", "3rd"], 2),
   (["fourth", "4th"], 3), (["fifth", "5th"], 4)]

/-- Claim-side ordinal resolution: the first position 0–4 whose ordinal
word (either spelling) occurs in the message and is within the list
length; otherwise the first color/style substring match. -/
def claimOrdinalScan (ml : String) (shown : List Product) :
    List (List String × Nat) → Option Nat
  | [] => attrMatchScan ml shown
  | (ws, i) :: rest =>
      if (ws.any fun w => strContains w ml) && decide (i < shown.length) then
        (shown[i]?).map Product.ProductID
      else claimOrdinalScan ml shown rest

/-- Claim-side reference resolver. -/
def claimResolve (message : String) (shown : List Product) : Option Nat :=
  if shown.isEmpty then none
  else claimOrdinalScan (pyLower message) shown claimOrdinals

/-- One entry of `actions_performed`: a plain label, or the structured
slot-filling descriptor `{type: slot_filling, data: {slot, prompt}}`. -/
inductive ActionDescriptor where
  | label : String → ActionDescriptor
  | slot_filling : Option String → String → ActionDescriptor
  deriving Repr, DecidableEq

/-- The `{response, intent, actions_performed, products}` record every
intent handler returns. -/
structure HandlerResult where
  response : String
  intent : String
  actions_performed : List ActionDescriptor
  products : List Product
  deriving Repr, DecidableEq

/-- A `{role, content}` chat message. -/
structure PyMsg where
  role : String
  content : String
  deriving Repr, DecidableEq

/-- `ConversationContext` dataclass: per-user conversation state. -/
structure ConversationContext where
  user_id : Nat
  messages : List PyMsg := []
  current_intent : Option String := none
  slot_state : SlotFillingState := {}
  last_products_shown : List Product := []
  last_action : Option ActionDescriptor := none
  deriving Repr, DecidableEq

/-- The slot-update block of `_handle_product_search_with_slots`:
truthy extracted fields overwrite, absent ones never unset. -/
def mergeSlots (s : SlotFillingState) (a : Attributes) : SlotFillingState :=
  let s1 := if pyTruthy a.category then { s with category := a.category } else s
  let s2 := if pyTruthy a.style then { s1 with style := a.style } else s1
  let s3 := if pyTruthy a.color then { s2 with color := a.color } else s2
  if a.price_range.isSome then { s3 with price_range := a.price_range } else s3

/-- `_get_missing_slots`: category first, then style and color together. -/
def _get_missing_slots (s : SlotFillingState) : List String :=
  (if !pyTruthy s.category then ["category"] else []) ++
  (if !pyTruthy s.style && !pyTruthy s.color then ["style", "color"] else [])

/-- `_fallback_slot_question`: canned clarifying questions. -/
def _fallback_slot_question (missing : List String) : String :=
  if missing.contains "category" then
    "What type of product are you looking for? (shirt, pants, shoes, etc.)"
  else if missing.contains "style" && missing.contains "color" then
    "Do you have a preferred style or color in mind?"
  else if missing.contains "style" then
    "What style would you prefer? (casual, formal, trendy, etc.)"
  else if missing.contains "color" then
    "What color would you like?"
  else
    "Could you provide more details about what you\x27re looking for?"

/-- The collaborators `_handle_product_search_with_slots` consults:
attribute extraction, clarifying-question generation, the product query,
and result formatting (each may go through the external client). -/
structure SearchDeps where
  extract : String → Attributes
  question : List String → SlotFillingState → String
  search : SlotFillingState → List Product
  format : List Product → String

/-- `_handle_product_search_with_slots`: merge extracted attributes into
the session slot state; if still incomplete return a clarifying question
(leaving the merged slot state in place), else run the search, clear the
slot state, and replace `last_products_shown`. -/
def _handle_product_search_with_slots (d : SearchDeps) (message : String)
    (ctx : ConversationContext) : HandlerResult × ConversationContext :=
  let entities := d.extract message
  let slot_state := mergeSlots ctx.slot_state entities
  if !slot_state.check_completeness then
    let missing := _get_missing_slots slot_state
    let response := d.question missing slot_state
    ({ response := response, intent := "search_products",
       actions_performed := [ActionDescriptor.slot_filling missing.head? response],
       products := [] },
     { ctx with slot_state := slot_state })
  else
    let search_results := d.search slot_state
    let response :=
      if search_results.isEmpty then
        "I couldn\x27t find any products matching your criteria. Would you like to try different specifications?"
      else d.format search_results
    ({ response := response, intent := "search_products",
       actions_performed := [ActionDescriptor.label "search_products"],
       products := search_results },
     { ctx with slot_state := {}, last_products_shown := search_results })

/-- All four search-relevant slots unset. -/
def slotIsEmpty (s : SlotFillingState) : Bool :=
  s.category.isNone && s.style.isNone && s.color.isNone && s.price_range.isNone

/-- The claim C2 as stated: after a dispatch that executed a search the
slot state is empty, and while awaiting clarification it is never empty. -/
def C2Stated : Prop :=
  ∀ (d : SearchDeps) (message : String) (ctx : ConversationContext),
    ((_handle_product_search_with_slots d message ctx).1.actions_performed
        = [ActionDescriptor.label "search_products"] →
      slotIsEmpty (_handle_product_search_with_slots d message ctx).2.slot_state = true) ∧
    (∀ s q, (_handle_product_search_with_slots d message ctx).1.actions_performed
        = [ActionDescriptor.slot_filling s q] →
      slotIsEmpty (_handle_product_search_with_slots d message ctx).2.slot_state = false)

/-- Deterministic fallback collaborators (no external client, empty
product store). -/
def d2deps : SearchDeps :=
  { extract := fallback_extract_attributes,
    question := fun missing _ => _fallback_slot_question missing,
    search := fun _ => [],
    format := fun _ => "" }

/-- A fresh conversation context. -/
def ctx2ex : ConversationContext := { user_id := 1 }

/-- The `ChatResult` record the boundary returns. -/
structure ChatResult where
  response : String
  products : List Product
  actions_performed : List ActionDescriptor
  conversation_id : Option Nat
  intent : String
  deriving Repr, DecidableEq

/-- The constant error result built in the `except` block of `chat`. -/
def errorChatResult : ChatResult :=
  { response := "I apologize, but I encountered an error. Please try again.",
    products := [],
    actions_performed := [ActionDescriptor.label "error"],
    conversation_id := some 1,
    intent := "error" }

/-- The fallible collaborators of one `chat` turn.  `classify` covers
`_classify_intent_with_context` together with the `intent` key lookup
(the external service can return JSON without that key, raising at the
dispatch site); `dispatch` runs the routed handler and returns the
context as mutated so far together with the handler outcome (a handler
can raise, e.g. on a malformed entities object); `history` is what
`_load_conversation_history` swallowed-errors-and-all produces; `save`
is `_save_conversation`, which catches internally and yields `None` on
failure. -/
structure ChatDeps where
  history : List PyMsg
  classify : List PyMsg → String → Except String IntentResult
  dispatch : String → String → ConversationContext →
    ConversationContext × Except String HandlerResult
  save : Option Nat

/-- `_load_conversation_history`: prepend persisted history when only
the current exchange is in memory. -/
def loadHistory (hist : List PyMsg) (ctx : ConversationContext) : ConversationContext :=
  if ctx.messages.length ≤ 2 then { ctx with messages := hist ++ ctx.messages } else ctx

/-- The `try` body of `chat`: append the user message, load history,
classify, dispatch, then update intent, last action and the assistant
message, and attach the saved conversation id (`None` becomes 1). -/
def chatAttempt (d : ChatDeps) (ctx : ConversationContext) (message : String) :
    ConversationContext × Except String ChatResult :=
  let ctx1 := { ctx with messages := ctx.messages ++ [{ role := "user", content := message }] }
  let ctx2 := loadHistory d.history ctx1
  match d.classify ctx2.messages message with
  | Except.error e => (ctx2, Except.error e)
  | Except.ok ir =>
      match d.dispatch ir.intent message ctx2 with
      | (ctx3, Except.error e) => (ctx3, Except.error e)
      | (ctx3, Except.ok r) =>
          let ctx4 := { ctx3 with
            current_intent := some ir.intent,
            last_action := r.actions_performed.head?,
            messages := ctx3.messages ++ [{ role := "assistant", content := r.response }] }
          (ctx4, Except.ok
            { response := r.response,
              products := r.products,
              actions_performed := r.actions_performed,
              conversation_id := some (d.save.getD 1),
              intent := r.intent })

/-- `chat`: the `try`/`except` wrapper — any failure of the body is
converted to the constant error result (the context keeps the mutations
applied before the failure, as the `except` block does not restore it). -/
def chat (d : ChatDeps) (ctx : ConversationContext) (message : String) :
    ConversationContext × ChatResult :=
  match chatAttempt d ctx message with
  | (c, Except.ok r) => (c, r)
  | (c, Except.error _) => (c, errorChatResult)

/-- Deps whose classification step fails (malformed external JSON). -/
def d6deps : ChatDeps :=
  { history := [],
    classify := fun _ _ => Except.error "KeyError: intent",
    dispatch := fun _ _ c =>
      (c, Except.ok
        { response := "ok",
          intent := "friendly_chat",
          actions_performed := [ActionDescriptor.label "friendly_chat"],
          products := [] }),
    save := none }

/-- Deps for the mutation-order analysis: classification raises. -/
def d10deps : ChatDeps :=
  { history := [],
    classify := fun _ _ => Except.error "TypeError",
    dispatch := fun _ _ c =>
      (c, Except.ok
        { response := "ok",
          intent := "friendly_chat",
          actions_performed := [ActionDescriptor.label "friendly_chat"],
          products := [] }),
    save := none }

/-- Context for the mutation-order counterexample. -/
def ctx10 : ConversationContext := { user_id := 7 }

/-- A regex word character (letter, digit or underscore). -/
def isWordChar (c : Char) : Bool := c.isAlphanum || c == '_'

/-- Accumulating scan splitting a char list into its maximal runs of
word characters. -/
def wordTokensAux : List Char → List Char → List (List Char)
  | [], acc => if acc.isEmpty then [] else [acc.reverse]
  | c :: rest, acc =>
      if isWordChar c then wordTokensAux rest (c :: acc)
      else if acc.isEmpty then wordTokensAux rest []
      else acc.reverse :: wordTokensAux rest []

/-- Maximal word-character runs of a message. -/
def wordTokens (s : String) : List (List Char) := wordTokensAux s.toList []

/-- `_extract_product_ids`: the word-boundary-delimited numeric tokens
(a digit run flanked by word characters has no boundary, so a match is
exactly a maximal word run that is all digits), converted to integers
and kept when `0 < id < 10000`. -/
def _extract_product_ids (message : String) : List Nat :=
  (((wordTokens message).filter (fun t => t.all Char.isDigit)).map natOfDigits).filter
    (fun pid => decide (0 < pid) && decide (pid < 10000))

/-- The claim's reading: explicit numeric tokens in the range 1–9999. -/
def claimNumericTokens (message : String) : List Nat :=
  (((wordTokens message).filter (fun t => t.all Char.isDigit)).map natOfDigits).filter
    (fun pid => decide (1 ≤ pid) && decide (pid ≤ 9999))

/-- One `CartItems` row of the acting user's cart. -/
structure CartLine where
  productId : Nat
  quantity : Nat
  deriving Repr, DecidableEq

/-- Quantity of the first cart line carrying a product id, if any. -/
def qtyOf (cart : List CartLine) (pid : Nat) : Option Nat :=
  (cart.find? (fun l => l.productId == pid)).map CartLine.quantity

/-- The `UPDATE ... SET Quantity = q + 1` step: the first line with the
product id gets its quantity incremented. -/
def incFirst : List CartLine → Nat → List CartLine
  | [], _ => []
  | l :: t, pid =>
      if l.productId == pid then { l with quantity := l.quantity + 1 } :: t
      else l :: incFirst t pid

/-- Body of the per-id loop of `_add_products_to_cart`: the product must
exist with positive stock (`WHERE ProductID = ? AND Stock > 0`), then an
existing cart line is incremented, else a line with quantity 1 is
inserted; otherwise the id is skipped.  Also reports the product added. -/
def addOneCart (products : List Product) (cart : List CartLine) (pid : Nat) :
    List CartLine × Option Product :=
  match products.find? (fun p => p.ProductID == pid && decide (0 < p.Stock)) with
  | none => (cart, none)
  | some p =>
      match cart.find? (fun l => l.productId == pid) with
      | some _ => (incFirst cart pid, some p)
      | none => (cart ++ [{ productId := pid, quantity := 1 }], some p)

/-- `_add_products_to_cart`: loop over the ids, then summarize. -/
def _add_products_to_cart (products : List Product) (cart : List CartLine)
    (ids : List Nat) : List CartLine × String :=
  let folded := ids.foldl
    (fun (acc : List CartLine × List Product) pid =>
      match addOneCart products acc.1 pid with
      | (c2, some p) => (c2, acc.2 ++ [p])
      | (c2, none) => (c2, acc.2))
    (cart, [])
  let response :=
    if folded.2.isEmpty then
      "❌ Could not add products to cart. They may be out of stock."
    else if folded.2.length == 1 then
      "✅ Added " ++ ((folded.2.head?).map Product.Name).getD "" ++ " to your cart!"
    else
      "✅ Added " ++ toString folded.2.length ++ " items to your cart: "
        ++ String.intercalate ", " (folded.2.map Product.Name)
  (folded.1, response)

/-- `_handle_add_to_cart`: explicit ids from the message, else the
reference resolver against the last-shown products, else a request to
clarify; found ids are added via `_add_products_to_cart`. -/
def _handle_add_to_cart (products : List Product) (cart : List CartLine)
    (message : String) (shown : List Product) : HandlerResult × List CartLine :=
  let ids0 := _extract_product_ids message
  let ids :=
    if ids0.isEmpty && !shown.isEmpty then
      match _resolve_product_reference message shown with
      | some r => [r]
      | none => []
    else ids0
  if ids.isEmpty then
    ({ response := "I\x27m not sure which product you want to add. Could you specify the product ID or describe it?",
       intent := "add_to_cart",
       actions_performed := [ActionDescriptor.label "add_to_cart"],
       products := [] }, cart)
  else
    ({ response := (_add_products_to_cart products cart ids).2,
       intent := "add_to_cart",
       actions_performed := [ActionDescriptor.label "add_to_cart"],
       products := [] }, (_add_products_to_cart products cart ids).1)

/-- The ids the claim says an add-to-cart turn acts on: explicit numeric
tokens, else the resolver result, else none (clarification). -/
def claimAddTargets (message : String) (shown : List Product) : Option (List Nat) :=
  if (claimNumericTokens message).isEmpty then
    match _resolve_product_reference message shown with
    | some r => some [r]
    | none => none
  else some (claimNumericTokens message)

/-- A one-product store for the add-to-cart scenario. -/
def products8 : List Product := [{ ProductID := 5, Name := "Cap", Stock := 2 }]

/-- A cart already holding two units of product 5. -/
def cart8 : List CartLine := [{ productId := 5, quantity := 2 }]

/-- One row of the cart view joined with product data
(`CartItems` join `Products` in `_handle_view_cart`). -/
structure CartItemView where
  CartItemID : Nat
  ProductID : Nat
  Name : String
  Price : ℚ
  Quantity : Nat
  Color : String
  Style : String
  Total : ℚ
  deriving Repr, DecidableEq

/-- Two-decimal dollar rendering of the `%.2f` templates (prices in the
model are exact rationals, so flooring the cent count is exact for the
cent-valued prices that occur). -/
def fmtMoney (q : ℚ) : String :=
  let cents : Int := Rat.floor (q * 100)
  let frac := (cents % 100).toNat
  toString (cents / 100) ++ "." ++
    (if frac < 10 then "0" ++ toString frac else toString frac)

/-- Projection of a cart row onto the product-snapshot record (the
source returns the raw row dicts; the extra CartItemID/Quantity/Total
keys have no place in the snapshot record of this embedding). -/
def snapshotOfRow (it : CartItemView) : Product :=
  { ProductID := it.ProductID, Name := it.Name, Price := it.Price,
    Color := it.Color, Style := it.Style }

/-- `_format_cart_contents`: line-itemized summary with running total. -/
def _format_cart_contents (cart_items : List CartItemView) (total : ℚ) : String :=
  "🛒 Your cart has " ++ toString cart_items.length ++ " item(s):\n\n"
  ++ String.join (cart_items.enum.map (fun e =>
      toString (e.1 + 1) ++ ". " ++ e.2.Name ++ " (ID: " ++ toString e.2.ProductID ++ ")\n"
      ++ "   💰 $" ++ fmtMoney e.2.Price ++ " x " ++ toString e.2.Quantity
      ++ " = $" ++ fmtMoney (e.2.Price * e.2.Quantity) ++ "\n"
      ++ "   🎨 " ++ e.2.Color ++ " | " ++ e.2.Style ++ "\n\n"))
  ++ "📊 Total: $" ++ fmtMoney total ++ "\n\n"
  ++ "Would you like to checkout or continue shopping?"

/-- `_handle_view_cart`: the fallible DB read (cart row plus joined
items) is the `fetch` argument: `none` means no cart row, a failure is
caught and turned into the apologetic result carrying the handler's own
`view_cart` action label. -/
def _handle_view_cart (fetch : Except String (Option (List CartItemView))) :
    HandlerResult :=
  match fetch with
  | Except.error _ =>
      { response := "Sorry, I couldn\x27t retrieve your cart. Please try again.",
        intent := "view_cart",
        actions_performed := [ActionDescriptor.label "view_cart"],
        products := [] }
  | Except.ok none =>
      { response := "Your cart is empty. Would you like to browse some products?",
        intent := "view_cart",
        actions_performed := [ActionDescriptor.label "view_cart"],
        products := [] }
  | Except.ok (some items) =>
      if items.isEmpty then
        { response := "Your cart is empty. Would you like to browse some products?",
          intent := "view_cart",
          actions_performed := [ActionDescriptor.label "view_cart"],
          products := [] }
      else
        { response := _format_cart_contents items
            (items.foldl (fun a it => a + it.Total) 0),
          intent := "view_cart",
          actions_performed := [ActionDescriptor.label "view_cart"],
          products := items.map snapshotOfRow }

/-- `_handle_remove_from_cart`: explicit ids are required (the specify
message is produced before any DB access); deletes the matching lines
one id at a time, counting the ids whose delete touched a row; a DB
failure is caught and turned into the apologetic result carrying the
handler's own `remove_from_cart` action label. -/
def _handle_remove_from_cart (message : String)
    (fetch : Except String (Option (List CartLine))) : HandlerResult :=
  let ids := _extract_product_ids message
  if ids.isEmpty then
    { response := "Please specify which product to remove (e.g., \x27remove product 123\x27).",
      intent := "remove_from_cart",
      actions_performed := [ActionDescriptor.label "remove_from_cart"],
      products := [] }
  else
    match fetch with
    | Except.error _ =>
        { response := "Sorry, there was an error removing items. Please try again.",
          intent := "remove_from_cart",
          actions_performed := [ActionDescriptor.label "remove_from_cart"],
          products := [] }
    | Except.ok none =>
        { response := "You don\x27t have a cart yet. Try adding some products first!",
          intent := "remove_from_cart",
          actions_performed := [ActionDescriptor.label "remove_from_cart"],
          products := [] }
    | Except.ok (some cart) =>
        let folded := ids.foldl
          (fun (acc : List CartLine × List Nat) pid =>
            if acc.1.any (fun l => l.productId == pid) then
              (acc.1.filter (fun l => l.productId != pid), acc.2 ++ [pid])
            else (acc.1, acc.2))
          (cart, [])
        let response :=
          if folded.2.isEmpty then
            "❌ Could not find those items in your cart."
          else
            "✅ Removed " ++ toString folded.2.length ++ " item(s) from your cart.\n\n"
              ++ (if folded.1.isEmpty then "Your cart is now empty."
                  else "You still have " ++ toString folded.1.length
                    ++ " item(s) in your cart.")
        { response := response,
          intent := "remove_from_cart",
          actions_performed := [ActionDescriptor.label "remove_from_cart"],
          products := [] }

/-- `_format_product_details`, flagging zero stock. -/
def _format_product_details (p : Product) : String :=
  "📦 **" ++ p.Name ++ "** (ID: " ++ toString p.ProductID ++ ")\n\n"
  ++ "📝 " ++ p.Description ++ "\n\n"
  ++ "💰 Price: $" ++ fmtMoney p.Price ++ "\n"
  ++ "🎨 Color: " ++ p.Color ++ "\n"
  ++ "👔 Style: " ++ p.Style ++ "\n"
  ++ "📊 Stock: " ++ toString p.Stock ++ " available\n\n"
  ++ (if 0 < p.Stock then "Would you like to add this to your cart?"
      else "⚠️ This product is currently out of stock.")

/-- The id-selection prelude of `_handle_add_to_cart` (explicit ids,
else the resolver against the last-shown products), which runs before
any cart access. -/
def addTargets (message : String) (shown : List Product) : List Nat :=
  let ids0 := _extract_product_ids message
  if ids0.isEmpty && !shown.isEmpty then
    match _resolve_product_reference message shown with
    | some r => [r]
    | none => []
  else ids0

/-- `_handle_add_to_cart` with the fallible cart store exposed: the
try/except sits inside `_add_products_to_cart`, so the id selection and
the clarification request happen before any store access, and a store
failure is caught there and becomes the apology string with the cart
untouched (the transaction was never committed); the `Except.ok` case is
exactly `_handle_add_to_cart`. -/
def _handle_add_to_cart_fallible (products : List Product) (cart : List CartLine)
    (message : String) (shown : List Product) (db : Except String Unit) :
    HandlerResult × List CartLine :=
  if (addTargets message shown).isEmpty then
    ({ response := "I\x27m not sure which product you want to add. Could you specify the product ID or describe it?",
       intent := "add_to_cart",
       actions_performed := [ActionDescriptor.label "add_to_cart"],
       products := [] }, cart)
  else
    match db with
    | Except.ok _ =>
        ({ response := (_add_products_to_cart products cart (addTargets message shown)).2,
           intent := "add_to_cart",
           actions_performed := [ActionDescriptor.label "add_to_cart"],
           products := [] },
         (_add_products_to_cart products cart (addTargets message shown)).1)
    | Except.error _ =>
        ({ response := "Sorry, there was an error adding to your cart. Please try again.",
           intent := "add_to_cart",
           actions_performed := [ActionDescriptor.label "add_to_cart"],
           products := [] }, cart)

/-- The id-selection prelude of `_handle_product_view` (here the
resolver fallback has no non-empty guard in the source). -/
def pvTargets (message : String) (shown : List Product) : List Nat :=
  let ids0 := _extract_product_ids message
  if ids0.isEmpty then
    match _resolve_product_reference message shown with
    | some r => [r]
    | none => []
  else ids0

/-- `_handle_product_view` with the fallible product fetch exposed: id
resolution and the specify message happen before the `try`; a fetch
failure is caught and becomes the apologetic result with the handler's
own label. -/
def _handle_product_view_fallible (message : String) (shown : List Product)
    (fetch : Except String (Option Product)) : HandlerResult :=
  match (pvTargets message shown).head? with
  | none =>
      { response := "Please specify which product you\x27d like to see details for (e.g., \x27show product 123\x27).",
        intent := "product_view",
        actions_performed := [ActionDescriptor.label "product_view"],
        products := [] }
  | some pid =>
      match fetch with
      | Except.error _ =>
          { response := "Sorry, I couldn\x27t retrieve product details. Please try again.",
            intent := "product_view",
            actions_performed := [ActionDescriptor.label "product_view"],
            products := [] }
      | Except.ok (some p) =>
          { response := _format_product_details p,
            intent := "product_view",
            actions_performed := [ActionDescriptor.label "product_view"],
            products := [p] }
      | Except.ok none =>
          { response := "I couldn\x27t find product " ++ toString pid
              ++ ". Please check the product ID.",
            intent := "product_view",
            actions_performed := [ActionDescriptor.label "product_view"],
            products := [] }

/-- `_handle_friendly_chat` with the fallible external call exposed: a
failure of the generation call is caught and becomes the fixed canned
reply with the handler's own label. -/
def _handle_friendly_chat_fallible (gen : Except String String) : HandlerResult :=
  match gen with
  | Except.ok r =>
      { response := r,
        intent := "friendly_chat",
        actions_performed := [ActionDescriptor.label "friendly_chat"],
        products := [] }
  | Except.error _ =>
      { response := "I\x27m here to help with your shopping! Feel free to ask about products or your cart.",
        intent := "friendly_chat",
        actions_performed := [ActionDescriptor.label "friendly_chat"],
        products := [] }

/-- Deps for the top-level error-flag scenario: classification raises. -/
def d9deps : ChatDeps :=
  { history := [],
    classify := fun _ _ => Except.error "boom",
    dispatch := fun _ _ c =>
      (c, Except.ok
        { response := "ok",
          intent := "friendly_chat",
          actions_performed := [ActionDescriptor.label "friendly_chat"],
          products := [] }),
    save := none }

/-- A `Conversations` table row (role 1 = user, 2 = assistant). -/
structure ConvRow where
  user : Nat
  role : Nat
  message : String
  deriving Repr, DecidableEq

/-- The whole service's state: the in-memory per-user context store plus
the relational data the handlers read and write. -/
structure ServiceState where
  contexts : List (Nat × ConversationContext) := []
  conversations : List ConvRow := []
  carts : List (Nat × List CartLine) := []
  products : List Product := []
  deriving Repr, DecidableEq

/-- The external language-model client, as a deterministic oracle: a
response for each of the five prompt shapes the service sends. -/
structure ClientOracle where
  classifyO : List PyMsg → String → IntentResult
  extractO : String → Attributes
  questionO : List String → SlotFillingState → String
  formatO : List Product → String
  chatGenO : List PyMsg → String

/-- Association-list lookup by numeric key. -/
def lookupA {β : Type} (l : List (Nat × β)) (k : Nat) : Option β :=
  (l.find? (fun p => p.1 == k)).map Prod.snd

/-- Association-list insert-or-replace. -/
def upsertA {β : Type} (l : List (Nat × β)) (k : Nat) (v : β) : List (Nat × β) :=
  if l.any (fun p => p.1 == k) then l.map (fun p => if p.1 == k then (k, v) else p)
  else l ++ [(k, v)]

/-- Association-list key removal (`del self.user_contexts[user_id]`). -/
def removeA {β : Type} (l : List (Nat × β)) (k : Nat) : List (Nat × β) :=
  l.filter (fun p => p.1 != k)

/-- The conversation rows of one user, in insertion (creation) order. -/
def rowsFor (rows : List ConvRow) (uid : Nat) : List ConvRow :=
  rows.filter (fun r => r.user == uid)

/-- The last `n` entries of a list, in order. -/
def lastN {α : Type} (n : Nat) (l : List α) : List α := (l.reverse.take n).reverse

/-- `_load_conversation_history`'s row conversion: the ten most recent
rows (limit 5 doubled), oldest first, mapped to chat messages. -/
def historyMsgs (rows : List ConvRow) : List PyMsg :=
  (lastN 10 rows).map (fun r =>
    { role := if r.role == 1 then "user" else "assistant", content := r.message })

/-- Category-id lookup of `_search_products_with_slots`: the first
category whose lowered keyword list contains the lowered slot value. -/
def categoryIdOf (cat : String) : Option Nat :=
  (category_mapping.find? (fun ck => ck.2.any (fun k => pyLower k == pyLower cat))).map
    Prod.fst

/-- The WHERE clause built by `_search_products_with_slots`: positive
stock always; each further condition only when its slot is truthy (note
a 0 bound is falsy in Python, so it adds no condition). -/
def matchesSearch (s : SlotFillingState) (p : Product) : Bool :=
  decide (0 < p.Stock)
  && (if pyTruthy s.category then
        match categoryIdOf ((s.category).getD "") with
        | some cid => p.CategoryID == cid
        | none => true
      else true)
  && (if pyTruthy s.color then
        strContains (pyLower ((s.color).getD "")) (pyLower p.Color)
      else true)
  && (if pyTruthy s.style then
        strContains (pyLower ((s.style).getD "")) (pyLower p.Style)
      else true)
  && (match s.price_range with
      | none => true
      | some pr =>
          (if pr.lo == 0 then true else decide (pr.lo ≤ p.Price))
          && (if pr.hi == 0 then true else decide (p.Price ≤ pr.hi)))

/-- Insertion into a ProductID-descending list. -/
def insertDesc (p : Product) : List Product → List Product
  | [] => [p]
  | q :: t => if q.ProductID < p.ProductID then p :: q :: t else q :: insertDesc p t

/-- `ORDER BY ProductID DESC` (ids are unique keys). -/
def sortByIdDesc (l : List Product) : List Product := l.foldr insertDesc []

/-- `_search_products_with_slots`: filter, newest id first, `TOP 10`. -/
def _search_products_with_slots (products : List Product) (s : SlotFillingState) :
    List Product :=
  (sortByIdDesc (products.filter (matchesSearch s))).take 10

/-- `_handle_friendly_chat` on the client path: the external model
answers from the recent transcript. -/
def _handle_friendly_chat (o : ClientOracle) (ctx : ConversationContext) : HandlerResult :=
  { response := o.chatGenO (lastN 6 ctx.messages),
    intent := "friendly_chat",
    actions_performed := [ActionDescriptor.label "friendly_chat"],
    products := [] }

/-- `_handle_product_view`: explicit id or resolver, then fetch. -/
def _handle_product_view (products : List Product) (message : String)
    (shown : List Product) : HandlerResult :=
  let ids0 := _extract_product_ids message
  let ids :=
    if ids0.isEmpty then
      match _resolve_product_reference message shown with
      | some r => [r]
      | none => []
    else ids0
  match ids.head? with
  | none =>
      { response := "Please specify which product you\x27d like to see details for (e.g., \x27show product 123\x27).",
        intent := "product_view",
        actions_performed := [ActionDescriptor.label "product_view"],
        products := [] }
  | some pid =>
      match products.find? (fun p => p.ProductID == pid) with
      | some p =>
          { response := _format_product_details p,
            intent := "product_view",
            actions_performed := [ActionDescriptor.label "product_view"],
            products := [p] }
      | none =>
          { response := "I couldn\x27t find product " ++ toString pid
              ++ ". Please check the product ID.",
            intent := "product_view",
            actions_performed := [ActionDescriptor.label "product_view"],
            products := [] }

/-- The `CartItems` join `Products` of the view-cart query. -/
def joinCart (products : List Product) (cart : List CartLine) : List CartItemView :=
  cart.filterMap (fun l =>
    (products.find? (fun p => p.ProductID == l.productId)).map (fun p =>
      { CartItemID := l.productId, ProductID := l.productId, Name := p.Name,
        Price := p.Price, Quantity := l.quantity, Color := p.Color,
        Style := p.Style, Total := p.Price * l.quantity }))

/-- Cart contents after a remove turn: all lines whose id was named are
deleted (no effect when no explicit id was given). -/
def removeResultCart (message : String) (cart : Option (List CartLine)) :
    Option (List CartLine) :=
  match cart with
  | none => none
  | some c =>
      let ids := _extract_product_ids message
      if ids.isEmpty then some c
      else some (c.filter (fun l => !(ids.contains l.productId)))

/-- The if/elif dispatch of `chat`, routed on the intent label with
`friendly_chat` as the default branch; each branch runs its handler over
the relevant slice of the store.  Returns the handler result, the
context as the handler left it, and the user's cart afterwards. -/
def dispatchIntent (o : ClientOracle) (products : List Product)
    (cart : Option (List CartLine)) (intent message : String)
    (ctx : ConversationContext) :
    HandlerResult × ConversationContext × Option (List CartLine) :=
  if intent == "search_products" then
    let out := _handle_product_search_with_slots
      { extract := o.extractO, question := o.questionO,
        search := _search_products_with_slots products, format := o.formatO }
      message ctx
    (out.1, out.2, cart)
  else if intent == "add_to_cart" then
    let out := _handle_add_to_cart products (cart.getD []) message ctx.last_products_shown
    (out.1, ctx, some out.2)
  else if intent == "view_cart" then
    (_handle_view_cart (Except.ok (cart.map (joinCart products))), ctx, cart)
  else if intent == "product_view" then
    (_handle_product_view products message ctx.last_products_shown, ctx, cart)
  else if intent == "remove_from_cart" then
    (_handle_remove_from_cart message (Except.ok cart), ctx, removeResultCart message cart)
  else
    (_handle_friendly_chat o ctx, ctx, cart)

/-- One `chat` turn as a function of the slices of the service state the
code consults for this user: stored context (if any), the user's
conversation rows, the user's cart, and the product table. -/
def serviceChatCore (o : ClientOracle) (ctx0 : Option ConversationContext)
    (rows : List ConvRow) (cart : Option (List CartLine)) (products : List Product)
    (uid : Nat) (message : String) :
    ConversationContext × Option (List CartLine) × ChatResult :=
  let ctx := ctx0.getD { user_id := uid }
  let ctx1 := { ctx with messages := ctx.messages ++ [{ role := "user", content := message }] }
  let ctx2 :=
    if ctx1.messages.length ≤ 2 then
      { ctx1 with messages := historyMsgs rows ++ ctx1.messages }
    else ctx1
  let ir := o.classifyO (lastN 6 ctx2.messages) message
  let out := dispatchIntent o products cart ir.intent message ctx2
  let ctx4 := { out.2.1 with
    current_intent := some ir.intent,
    last_action := out.1.actions_performed.head?,
    messages := out.2.1.messages ++ [{ role := "assistant", content := out.1.response }] }
  (ctx4, out.2.2,
   { response := out.1.response, products := out.1.products,
     actions_performed := out.1.actions_performed,
     conversation_id := some 1, intent := out.1.intent })

/-- `chat` at the service level: run the turn on this user's slices of
the store, then write back the context, the two persisted conversation
rows, and the cart. -/
def serviceChat (o : ClientOracle) (st : ServiceState) (uid : Nat) (message : String) :
    ServiceState × ChatResult :=
  let core := serviceChatCore o (lookupA st.contexts uid) (rowsFor st.conversations uid)
    (lookupA st.carts uid) st.products uid message
  ({ contexts := upsertA st.contexts uid core.1,
     conversations := st.conversations
       ++ [{ user := uid, role := 1, message := message },
           { user := uid, role := 2, message := core.2.2.response }],
     carts :=
       match core.2.1 with
       | some c => upsertA st.carts uid c
       | none => st.carts,
     products := st.products }, core.2.2)

/-- The record `reset_conversation` returns (it has no intent key, and
carries the fresh session id and a status instead). -/
structure ResetResult where
  response : String
  products : List Product
  actions_performed : List ActionDescriptor
  conversation_id : Option Nat
  session_id : String
  status : String
  deriving Repr, DecidableEq

/-- `reset_conversation`: drop the in-memory context, log a reset
exchange to the conversation store, return the fixed confirmation plus
the freshly generated session id (passed in for the `uuid4` call). -/
def reset_conversation (st : ServiceState) (uid : Nat) (session_id : String) :
    ServiceState × ResetResult :=
  let resp := "Sure! Let\x27s start fresh. What kind of product are you looking for?"
  ({ st with
     contexts := removeA st.contexts uid,
     conversations := st.conversations
       ++ [{ user := uid, role := 1, message := "Conversation reset requested" },
           { user := uid, role := 2, message := resp }] },
   { response := resp, products := [],
     actions_performed := [ActionDescriptor.label "conversation_reset"],
     conversation_id := some 1, session_id := session_id,
     status := "reset_successful" })

/-- A service state for a user who never interacted: no in-memory
context and no persisted conversation rows (carts and products is the
shared store and stays). -/
def freshFor (st : ServiceState) (uid : Nat) : ServiceState :=
  { contexts := removeA st.contexts uid,
    conversations := st.conversations.filter (fun r => r.user != uid),
    carts := st.carts,
    products := st.products }

/-- The claim C7 as stated: a reset user's next turn behaves exactly
like the turn of a user with no prior history. -/
def C7Stated : Prop :=
  ∀ (o : ClientOracle) (st : ServiceState) (uid : Nat) (sid message : String),
    (serviceChat o (reset_conversation st uid sid).1 uid message).2
      = (serviceChat o (freshFor st uid) uid message).2

/-- An external-model oracle that classifies from the transcript: with
prior context it routes to view-cart, a bare first message makes small
talk. -/
def o7 : ClientOracle :=
  { classifyO := fun msgs _ =>
      if 1 < msgs.length then { intent := "view_cart", confidence := 9/10 }
      else { intent := "friendly_chat", confidence := 9/10 },
    extractO := fun _ => {},
    questionO := fun _ _ => "q",
    formatO := fun _ => "results",
    chatGenO := fun _ => "Hello there!" }

/-- Service state after user 7's first exchange. -/
def st7a : ServiceState := (serviceChat o7 {} 7 "hello").1

end WebApi

namespace WebApi

/-- A string has `isEmpty = false` exactly when it is not the empty string. -/
theorem isEmpty_false_iff (s : String) : s.isEmpty = false ↔ s ≠ "" := by
  rw [ne_eq, ← String.isEmpty_iff]
  cases h : s.isEmpty <;> simp

/-- An if-elif cascade over five Boolean guards equals the first-match
lookup in the corresponding rule table. -/
theorem intentRuleTable (c ap rd pi sw : Bool) (A R V P S F : IntentResult) :
    (if c then (if ap then A else if rd then R else V)
     else if pi then P else if sw then S else F)
    = match [(c && ap, A), (c && rd, R), (c, V), (pi, P), (sw, S)].find?
        (fun r => r.1) with
      | some r => r.2
      | none => F := by
  cases c <;> cases ap <;> cases rd <;> cases pi <;> cases sw <;> rfl

/-- `List.any id` over an explicit six-element list is the disjunction. -/
theorem anyIdSix (a b c d e f : Bool) :
    [a, b, c, d, e, f].any id = (a || b || c || d || e || f) := by
  cases a <;> cases b <;> cases c <;> cases d <;> cases e <;> cases f <;> rfl

/-- Merging two guards that share a bound check and a result value. -/
theorem mergeIte {α : Type} (a b c : Bool) (x r : α) :
    (if a && c then x else if b && c then x else r)
      = if (a || b) && c then x else r := by
  cases a <;> cases b <;> cases c <;> rfl

/-- The flattened ordinal loop of the source equals the claim's grouped
per-position scan. -/
theorem ordinalScan_eq (ml : String) (shown : List Product) :
    ordinalScan ml shown ordinals = claimOrdinalScan ml shown claimOrdinals := by
  simp only [ordinals, claimOrdinals, ordinalScan, claimOrdinalScan,
    List.any_cons, List.any_nil, Bool.or_false, mergeIte]

/-- Example products for the reference-resolution scenario. -/
def pA : Product :=
  { ProductID := 101, Name := "A", Color := "red", Style := "casual",
    Stock := 3, Price := 10 }

/-- Second example product. -/
def pB : Product :=
  { ProductID := 102, Name := "B", Color := "blue", Style := "formal",
    Stock := 5, Price := 20 }

/-- Third example product. -/
def pC : Product :=
  { ProductID := 103, Name := "C", Color := "green", Style := "sport",
    Stock := 2, Price := 30 }

/-- C5: the reference resolver maps ordinal words (either spelling, in
position order, bounds-checked) to the corresponding position of the
last-shown list, otherwise returns the first product whose lowercased
color or style occurs in the message, and absent when the list is empty
or nothing matches; on [A, B, C], "add the second one" resolves to B's
id and an out-of-range ordinal with no attribute match resolves to
absent. -/
theorem c5_resolve_reference :
    (∀ (message : String) (shown : List Product),
      _resolve_product_reference message shown = claimResolve message shown) ∧
    _resolve_product_reference "add the second one" [pA, pB, pC] = some 102 ∧
    _resolve_product_reference "add the fifth one" [pA, pB, pC] = none := by
  refine ⟨?_, by decide, by decide⟩
  intro message shown
  unfold _resolve_product_reference claimResolve
  rw [ordinalScan_eq]

/-- C2 counterexample: a search-intent message from which nothing can be
extracted ("find something") leaves the slot state entirely empty while
the dispatch returns a clarifying question, contradicting "never empty
while awaiting clarification". -/
theorem c2_counterexample : ¬ C2Stated := by
  intro h
  have h2 := (h d2deps "find something" ctx2ex).2 (some "category")
    "What type of product are you looking for? (shirt, pants, shoes, etc.)"
    (by decide)
  have htrue : slotIsEmpty
      (_handle_product_search_with_slots d2deps "find something" ctx2ex).2.slot_state
        = true := by decide
  rw [htrue] at h2
  cases h2

/-- C2 amended: immediately after a dispatch that executed a search the
slot state is reset to the empty state regardless of the result count
(and `last_products_shown` is replaced by the results); when a
clarifying question is returned instead, the slot state equals the
previous state merged with the newly extracted attributes — which is
empty exactly when nothing had been collected. -/
theorem c2_slot_state (d : SearchDeps) (message : String) (ctx : ConversationContext) :
    ((mergeSlots ctx.slot_state (d.extract message)).check_completeness = true →
      (_handle_product_search_with_slots d message ctx).2.slot_state = {} ∧
      (_handle_product_search_with_slots d message ctx).1.actions_performed
        = [ActionDescriptor.label "search_products"] ∧
      (_handle_product_search_with_slots d message ctx).2.last_products_shown
        = d.search (mergeSlots ctx.slot_state (d.extract message))) ∧
    ((mergeSlots ctx.slot_state (d.extract message)).check_completeness = false →
      (_handle_product_search_with_slots d message ctx).2.slot_state
        = mergeSlots ctx.slot_state (d.extract message) ∧
      (_handle_product_search_with_slots d message ctx).1.actions_performed
        = [ActionDescriptor.slot_filling
            (_get_missing_slots (mergeSlots ctx.slot_state (d.extract message))).head?
            (d.question (_get_missing_slots (mergeSlots ctx.slot_state (d.extract message)))
              (mergeSlots ctx.slot_state (d.extract message)))] ∧
      (_handle_product_search_with_slots d message ctx).1.products = []) := by
  constructor
  · intro hc
    unfold _handle_product_search_with_slots
    simp [hc]
  · intro hc
    unfold _handle_product_search_with_slots
    simp [hc]

/-- C2 witness: "find a black shirt" completes the slots and resets them
to empty; "find something" stays incomplete and returns no products. -/
theorem c2_slot_state_witness :
    (mergeSlots ctx2ex.slot_state (d2deps.extract "find a black shirt")).check_completeness
        = true ∧
    (_handle_product_search_with_slots d2deps "find a black shirt" ctx2ex).2.slot_state
        = {} ∧
    (mergeSlots ctx2ex.slot_state (d2deps.extract "find something")).check_completeness
        = false ∧
    (_handle_product_search_with_slots d2deps "find something" ctx2ex).1.products = [] := by
  have hc : (mergeSlots ctx2ex.slot_state
      (d2deps.extract "find a black shirt")).check_completeness = true := by decide
  have hf : (mergeSlots ctx2ex.slot_state
      (d2deps.extract "find something")).check_completeness = false := by decide
  exact ⟨hc, ((c2_slot_state d2deps "find a black shirt" ctx2ex).1 hc).1, hf,
    ((c2_slot_state d2deps "find something" ctx2ex).2 hf).2.2⟩

/-- When the turn body fails, `chat` returns the context reached so far
paired with the constant error result. -/
theorem chat_of_attempt_error (d : ChatDeps) (ctx : ConversationContext) (msg e : String)
    (h : (chatAttempt d ctx msg).2 = Except.error e) :
    chat d ctx msg = ((chatAttempt d ctx msg).1, errorChatResult) := by
  have h2 : chatAttempt d ctx msg = ((chatAttempt d ctx msg).1, Except.error e) := by
    rw [← h]
  unfold chat
  rw [h2]

/-- `loadHistory` touches only the message list. -/
theorem loadHistory_proj (h : List PyMsg) (c : ConversationContext) :
    (loadHistory h c).slot_state = c.slot_state ∧
    (loadHistory h c).current_intent = c.current_intent ∧
    (loadHistory h c).last_action = c.last_action ∧
    (loadHistory h c).last_products_shown = c.last_products_shown := by
  unfold loadHistory
  split <;> exact ⟨rfl, rfl, rfl, rfl⟩

/-- C6: whenever the body of a `chat` turn fails, the caller receives
the fixed apologetic `ChatResult` with intent "error"; the result is the
same constant for every failure, so no exception text ever reaches the
user. -/
theorem c6_chat_error_contract (d : ChatDeps) (ctx : ConversationContext) (msg e : String)
    (h : (chatAttempt d ctx msg).2 = Except.error e) :
    (chat d ctx msg).2 = errorChatResult ∧
    errorChatResult.intent = "error" ∧
    errorChatResult.response = "I apologize, but I encountered an error. Please try again." ∧
    (∀ (d2 : ChatDeps) (ctx2 : ConversationContext) (msg2 e2 : String),
      (chatAttempt d2 ctx2 msg2).2 = Except.error e2 →
      (chat d2 ctx2 msg2).2 = (chat d ctx msg).2) := by
  refine ⟨by rw [chat_of_attempt_error d ctx msg e h], rfl, rfl, ?_⟩
  intro d2 ctx2 msg2 e2 h2
  rw [chat_of_attempt_error d2 ctx2 msg2 e2 h2, chat_of_attempt_error d ctx msg e h]

/-- C6 witness: a concrete failing classification is converted to the
constant error result. -/
theorem c6_chat_error_contract_witness :
    (chatAttempt d6deps { user_id := 3 } "hello").2 = Except.error "KeyError: intent" ∧
    (chat d6deps { user_id := 3 } "hello").2 = errorChatResult :=
  ⟨rfl, (c6_chat_error_contract d6deps { user_id := 3 } "hello" "KeyError: intent" (by rfl)).1⟩

/-- C10 counterexample: the user message is appended to the in-memory
context before the handler is dispatched, so after a turn that fails at
classification the context differs from its pre-call value. -/
theorem c10_counterexample :
    (chatAttempt d10deps ctx10 "hi").2 = Except.error "TypeError" ∧
    (chat d10deps ctx10 "hi").1.messages = [{ role := "user", content := "hi" }] ∧
    ctx10.messages = [] ∧
    (chat d10deps ctx10 "hi").1.messages ≠ ctx10.messages := by
  refine ⟨rfl, rfl, rfl, by decide⟩

/-- C10 amended: before dispatch the context is already mutated — the
user message is appended and persisted history prepended; a turn that
fails at classification keeps exactly those mutations (no rollback),
while slot state, current intent, last action and last shown products
are still untouched (they change only after a successful dispatch). -/
theorem c10_mutation_order (d : ChatDeps) (ctx : ConversationContext) (msg e : String)
    (h : d.classify (loadHistory d.history
        { ctx with messages := ctx.messages ++ [{ role := "user", content := msg }] }).messages
        msg = Except.error e) :
    (chat d ctx msg).1
      = loadHistory d.history
          { ctx with messages := ctx.messages ++ [{ role := "user", content := msg }] } ∧
    (chat d ctx msg).1.slot_state = ctx.slot_state ∧
    (chat d ctx msg).1.current_intent = ctx.current_intent ∧
    (chat d ctx msg).1.last_action = ctx.last_action ∧
    (chat d ctx msg).1.last_products_shown = ctx.last_products_shown := by
  have hA : chatAttempt d ctx msg
      = (loadHistory d.history
          { ctx with messages := ctx.messages ++ [{ role := "user", content := msg }] },
         Except.error e) := by
    simp only [chatAttempt, h]
  have hc : chat d ctx msg
      = (loadHistory d.history
          { ctx with messages := ctx.messages ++ [{ role := "user", content := msg }] },
         errorChatResult) := by
    unfold chat
    rw [hA]
  obtain ⟨p1, p2, p3, p4⟩ := loadHistory_proj d.history
    { ctx with messages := ctx.messages ++ [{ role := "user", content := msg }] }
  rw [hc]
  exact ⟨rfl, p1, p2, p3, p4⟩

/-- C10 amended witness: the concrete failing turn keeps the appended
user message and leaves the slot state untouched. -/
theorem c10_mutation_order_witness :
    (chat d10deps ctx10 "hi").1
      = loadHistory d10deps.history
          { ctx10 with messages := ctx10.messages ++ [{ role := "user", content := "hi" }] } ∧
    (chat d10deps ctx10 "hi").1.slot_state = ctx10.slot_state :=
  ⟨(c10_mutation_order d10deps ctx10 "hi" "TypeError" (by rfl)).1,
   (c10_mutation_order d10deps ctx10 "hi" "TypeError" (by rfl)).2.1⟩

/-- Incrementing the first line of an id changes exactly that id's
first-line quantity. -/
theorem qtyOf_incFirst (cart : List CartLine) (pid q : Nat) :
    qtyOf (incFirst cart pid) q
      = if q = pid then (qtyOf cart pid).map (· + 1) else qtyOf cart q := by
  induction cart with
  | nil =>
      by_cases hq : q = pid <;> simp [qtyOf, incFirst, hq]
  | cons l t ih =>
      by_cases hq : q = pid
      · subst hq
        by_cases hl : l.productId = q
        · have hbl : (l.productId == q) = true := beq_iff_eq.mpr hl
          simp [qtyOf, incFirst, List.find?, hbl]
        · have hbl : (l.productId == q) = false := beq_eq_false_iff_ne.mpr hl
          simp [qtyOf, incFirst, List.find?, hbl, Option.map_map]
          simpa [qtyOf, Option.map_map] using ih
      · by_cases hl : l.productId = pid
        · have hbl : (l.productId == pid) = true := beq_iff_eq.mpr hl
          have hblq : (l.productId == q) = false := by
            rw [beq_eq_false_iff_ne, hl]
            exact Ne.symm hq
          simp [qtyOf, incFirst, List.find?, hbl, hblq, hq]
        · have hbl : (l.productId == pid) = false := beq_eq_false_iff_ne.mpr hl
          by_cases hlq : l.productId = q
          · have hblq : (l.productId == q) = true := beq_iff_eq.mpr hlq
            simp [qtyOf, incFirst, List.find?, hbl, hblq, hq]
          · have hblq : (l.productId == q) = false := beq_eq_false_iff_ne.mpr hlq
            simp [qtyOf, incFirst, List.find?, hbl, hblq, hq]
            simpa [qtyOf, hq] using ih

/-- Appending a fresh line changes exactly that id's quantity (when the
id had no line before). -/
theorem qtyOf_append (cart : List CartLine) (pid q : Nat)
    (h : cart.find? (fun l => l.productId == pid) = none) :
    qtyOf (cart ++ [{ productId := pid, quantity := 1 }]) q
      = if q = pid then some 1 else qtyOf cart q := by
  unfold qtyOf
  rw [List.find?_append]
  by_cases hq : q = pid
  · subst hq
    rw [h]
    simp [List.find?]
  · have hpq : (pid == q) = false := beq_eq_false_iff_ne.mpr (Ne.symm hq)
    have hs : List.find? (fun (l : CartLine) => l.productId == q)
        [({ productId := pid, quantity := 1 } : CartLine)] = none := by
      simp [List.find?, hpq]
    rw [hs]
    simp [hq, Option.or_none]

/-- C8: an add-to-cart turn acts on exactly the explicit numeric tokens
in 1–9999, falling back to the reference resolver and then to a
clarification request; each id is processed independently — unknown or
zero-stock ids leave the cart unchanged, an id already in the cart has
its first line's quantity incremented by 1, any other valid id gains a
fresh line with quantity 1, and no other id's quantity ever changes. -/
theorem c8_add_to_cart_pipeline (products : List Product) (cart : List CartLine)
    (message : String) (shown : List Product) :
    _extract_product_ids message = claimNumericTokens message ∧
    (match claimAddTargets message shown with
     | some ids =>
        _handle_add_to_cart products cart message shown
          = ({ response := (_add_products_to_cart products cart ids).2,
               intent := "add_to_cart",
               actions_performed := [ActionDescriptor.label "add_to_cart"],
               products := [] }, (_add_products_to_cart products cart ids).1)
     | none =>
        _handle_add_to_cart products cart message shown
          = ({ response := "I\x27m not sure which product you want to add. Could you specify the product ID or describe it?",
               intent := "add_to_cart",
               actions_performed := [ActionDescriptor.label "add_to_cart"],
               products := [] }, cart)) ∧
    (∀ pid, products.any (fun p => p.ProductID == pid && decide (0 < p.Stock)) = false →
      (addOneCart products cart pid).1 = cart) ∧
    (∀ pid, products.any (fun p => p.ProductID == pid && decide (0 < p.Stock)) = true →
      qtyOf (addOneCart products cart pid).1 pid = some ((qtyOf cart pid).getD 0 + 1)) ∧
    (∀ pid q, q ≠ pid →
      qtyOf (addOneCart products cart pid).1 q = qtyOf cart q) := by
  have hext : _extract_product_ids message = claimNumericTokens message := by
    unfold _extract_product_ids claimNumericTokens
    apply List.filter_congr
    intro pid _
    rw [decide_eq_decide.mpr (show (0 < pid) ↔ (1 ≤ pid) by omega),
      decide_eq_decide.mpr (show (pid < 10000) ↔ (pid ≤ 9999) by omega)]
  refine ⟨hext, ?_, ?_, ?_, ?_⟩
  · unfold _handle_add_to_cart claimAddTargets
    rw [hext]
    by_cases h0 : (claimNumericTokens message).isEmpty
    · by_cases hs : shown.isEmpty
      · have hr : _resolve_product_reference message shown = none := by
          unfold _resolve_product_reference
          rw [if_pos hs]
        simp [h0, hs, hr]
      · cases hr : _resolve_product_reference message shown with
        | none => simp [h0, hs, hr]
        | some r => simp [h0, hs, hr]
    · simp [h0]
  · intro pid h
    cases hf : products.find? (fun p => p.ProductID == pid && decide (0 < p.Stock)) with
    | none => simp [addOneCart, hf]
    | some p =>
        exfalso
        have hmem := List.mem_of_find?_eq_some hf
        have hp := List.find?_some hf
        have : products.any (fun p => p.ProductID == pid && decide (0 < p.Stock)) = true :=
          List.any_eq_true.mpr ⟨p, hmem, hp⟩
        rw [h] at this
        cases this
  · intro pid h
    cases hf : products.find? (fun p => p.ProductID == pid && decide (0 < p.Stock)) with
    | none =>
        exfalso
        obtain ⟨p, hmem, hp⟩ := List.any_eq_true.mp h
        have := List.find?_eq_none.mp hf p hmem
        rw [hp] at this
        cases this rfl
    | some p =>
        cases hcf : cart.find? (fun l => l.productId == pid) with
        | some l =>
            simp only [addOneCart, hf, hcf]
            rw [qtyOf_incFirst]
            simp [qtyOf, hcf]
        | none =>
            simp only [addOneCart, hf, hcf]
            rw [qtyOf_append cart pid pid hcf]
            simp [qtyOf, hcf]
  · intro pid q hq
    cases hf : products.find? (fun p => p.ProductID == pid && decide (0 < p.Stock)) with
    | none => simp [addOneCart, hf]
    | some p =>
        cases hcf : cart.find? (fun l => l.productId == pid) with
        | some l =>
            simp only [addOneCart, hf, hcf]
            rw [qtyOf_incFirst]
            simp [hq]
        | none =>
            simp only [addOneCart, hf, hcf]
            rw [qtyOf_append cart pid q hcf]
            simp [hq]

/-- C8 witness: against a store holding product 5 (stock 2), an unknown
id is skipped, adding id 5 increments the existing line 2 → 3, adding it
to an empty cart creates a quantity-1 line, and other ids are untouched. -/
theorem c8_add_to_cart_pipeline_witness :
    (addOneCart products8 cart8 9).1 = cart8 ∧
    qtyOf (addOneCart products8 cart8 5).1 5 = some 3 ∧
    qtyOf (addOneCart products8 [] 5).1 5 = some 1 ∧
    qtyOf (addOneCart products8 cart8 5).1 6 = qtyOf cart8 6 := by
  refine ⟨(c8_add_to_cart_pipeline products8 cart8 "m" []).2.2.1 9 (by decide),
    ?_, ?_, (c8_add_to_cart_pipeline products8 cart8 "m" []).2.2.2.2 5 6 (by decide)⟩
  · have h := (c8_add_to_cart_pipeline products8 cart8 "m" []).2.2.2.1 5 (by decide)
    rw [h]
    decide
  · have h := (c8_add_to_cart_pipeline products8 [] "m" []).2.2.2.1 5 (by decide)
    rw [h]
    decide

/-- C9 counterexample: when the cart fetch fails, the view-cart and
remove-from-cart handlers return their own intent label as the sole
action flag — no error-style flag appears in `actions_performed`. -/
theorem c9_counterexample :
    (_handle_view_cart (Except.error "db down")).actions_performed
      = [ActionDescriptor.label "view_cart"] ∧
    (ActionDescriptor.label "error")
      ∉ (_handle_view_cart (Except.error "db down")).actions_performed ∧
    strContains "error" "view_cart" = false ∧
    (_handle_remove_from_cart "remove product 5" (Except.error "db down")).actions_performed
      = [ActionDescriptor.label "remove_from_cart"] ∧
    strContains "error" "remove_from_cart" = false := by
  refine ⟨rfl, by decide, by decide, by decide, by decide⟩

/-- C9 amended: every handler with a handler-level catch in the source
(add-to-cart via `_add_products_to_cart`, view-cart, view-product,
remove-from-cart, small-talk) never raises to the caller: an internal
failure becomes a fixed apologetic text (or, when the handler failed
before any product id was found, its clarification request),
independent of the failure, with the handler's own action label — never
an error-style flag — in `actions_performed` and the cart untouched.
The search handler has no catch of its own: its results carry only the
`search_products` label or a `slot_filling` descriptor, and a failure
in its body reaches the top-of-chat catch, the single place the
`["error"]` action flag is produced. -/
theorem c9_handler_failure_contract (e message : String) (products : List Product)
    (cart : List CartLine) (shown : List Product) :
    _handle_view_cart (Except.error e)
      = { response := "Sorry, I couldn\x27t retrieve your cart. Please try again.",
          intent := "view_cart",
          actions_performed := [ActionDescriptor.label "view_cart"],
          products := [] } ∧
    (_handle_remove_from_cart message (Except.error e)).actions_performed
      = [ActionDescriptor.label "remove_from_cart"] ∧
    (∀ e2, _handle_remove_from_cart message (Except.error e)
      = _handle_remove_from_cart message (Except.error e2)) ∧
    ((_handle_remove_from_cart message (Except.error e)).response
        = "Please specify which product to remove (e.g., \x27remove product 123\x27)."
      ∨ (_handle_remove_from_cart message (Except.error e)).response
        = "Sorry, there was an error removing items. Please try again.") ∧
    (∀ u : Unit, _handle_add_to_cart_fallible products cart message shown (Except.ok u)
      = _handle_add_to_cart products cart message shown) ∧
    (_handle_add_to_cart_fallible products cart message shown
        (Except.error e)).1.actions_performed
      = [ActionDescriptor.label "add_to_cart"] ∧
    (_handle_add_to_cart_fallible products cart message shown (Except.error e)).2 = cart ∧
    (∀ e2, _handle_add_to_cart_fallible products cart message shown (Except.error e)
      = _handle_add_to_cart_fallible products cart message shown (Except.error e2)) ∧
    ((_handle_add_to_cart_fallible products cart message shown (Except.error e)).1.response
        = "I\x27m not sure which product you want to add. Could you specify the product ID or describe it?"
      ∨ (_handle_add_to_cart_fallible products cart message shown (Except.error e)).1.response
        = "Sorry, there was an error adding to your cart. Please try again.") ∧
    (_handle_product_view_fallible message shown (Except.error e)).actions_performed
      = [ActionDescriptor.label "product_view"] ∧
    (∀ e2, _handle_product_view_fallible message shown (Except.error e)
      = _handle_product_view_fallible message shown (Except.error e2)) ∧
    ((_handle_product_view_fallible message shown (Except.error e)).response
        = "Please specify which product you\x27d like to see details for (e.g., \x27show product 123\x27)."
      ∨ (_handle_product_view_fallible message shown (Except.error e)).response
        = "Sorry, I couldn\x27t retrieve product details. Please try again.") ∧
    (_handle_friendly_chat_fallible (Except.error e)
      = { response := "I\x27m here to help with your shopping! Feel free to ask about products or your cart.",
          intent := "friendly_chat",
          actions_performed := [ActionDescriptor.label "friendly_chat"],
          products := [] }) ∧
    (∀ r, _handle_friendly_chat_fallible (Except.ok r)
      = { response := r, intent := "friendly_chat",
          actions_performed := [ActionDescriptor.label "friendly_chat"],
          products := [] }) ∧
    (∀ (d : SearchDeps) (ctx : ConversationContext),
      (_handle_product_search_with_slots d message ctx).1.actions_performed
          = [ActionDescriptor.label "search_products"]
        ∨ ∃ s q, (_handle_product_search_with_slots d message ctx).1.actions_performed
          = [ActionDescriptor.slot_filling s q]) ∧
    (∀ (d : ChatDeps) (ctx : ConversationContext) (m e2 : String),
      (chatAttempt d ctx m).2 = Except.error e2 →
      (chat d ctx m).2.actions_performed = [ActionDescriptor.label "error"]) ∧
    (["view_cart", "remove_from_cart", "add_to_cart", "product_view", "friendly_chat",
      "search_products"].all (fun l => !(strContains "error" l)) = true) := by
  refine ⟨rfl, ?_, ?_, ?_, ?_, ?_, ?_, ?_, ?_, ?_, ?_, ?_, rfl, ?_, ?_, ?_, by decide⟩
  · unfold _handle_remove_from_cart
    by_cases h : (_extract_product_ids message).isEmpty <;> simp [h]
  · intro e2
    unfold _handle_remove_from_cart
    by_cases h : (_extract_product_ids message).isEmpty <;> simp [h]
  · unfold _handle_remove_from_cart
    by_cases h : (_extract_product_ids message).isEmpty
    · left
      simp [h]
    · right
      simp [h]
  · intro u
    rfl
  · unfold _handle_add_to_cart_fallible
    by_cases h : (addTargets message shown).isEmpty <;> simp [h]
  · unfold _handle_add_to_cart_fallible
    by_cases h : (addTargets message shown).isEmpty <;> simp [h]
  · intro e2
    unfold _handle_add_to_cart_fallible
    by_cases h : (addTargets message shown).isEmpty <;> simp [h]
  · unfold _handle_add_to_cart_fallible
    by_cases h : (addTargets message shown).isEmpty
    · left
      simp [h]
    · right
      simp [h]
  · unfold _handle_product_view_fallible
    cases hh : (pvTargets message shown).head? <;> simp [hh]
  · intro e2
    unfold _handle_product_view_fallible
    cases hh : (pvTargets message shown).head? <;> simp [hh]
  · unfold _handle_product_view_fallible
    cases hh : (pvTargets message shown).head?
    · left
      simp [hh]
    · right
      simp [hh]
  · intro r
    rfl
  · intro d ctx
    cases h : (mergeSlots ctx.slot_state (d.extract message)).check_completeness
    · right
      refine ⟨(_get_missing_slots (mergeSlots ctx.slot_state (d.extract message))).head?,
        d.question (_get_missing_slots (mergeSlots ctx.slot_state (d.extract message)))
          (mergeSlots ctx.slot_state (d.extract message)), ?_⟩
      unfold _handle_product_search_with_slots
      simp [h]
    · left
      unfold _handle_product_search_with_slots
      simp [h]
  · intro d ctx m e2 h
    rw [chat_of_attempt_error d ctx m e2 h]
    rfl

/-- C9 witness: a concrete failing classification makes the top-level
catch emit the lone error flag, and a concrete failing cart store leaves
the cart untouched during an add-to-cart turn. -/
theorem c9_handler_failure_contract_witness :
    (chat d9deps { user_id := 2 } "hey").2.actions_performed
      = [ActionDescriptor.label "error"] ∧
    (_handle_add_to_cart_fallible [] [] "add product 5 to cart" []
      (Except.error "db down")).2 = [] := by
  obtain ⟨hv, hrl, hri, hrr, hao, hal, hac, hai, har, hpl, hpi, hpr, hff, hfo, hs,
    htop, hnc⟩ := c9_handler_failure_contract "db down" "add product 5 to cart" [] [] []
  exact ⟨htop d9deps { user_id := 2 } "hey" "boom" (by rfl), hac⟩

/-- Removing a key from an association list makes its lookup absent. -/
theorem lookupA_removeA {β : Type} (l : List (Nat × β)) (k : Nat) :
    lookupA (removeA l k) k = none := by
  induction l with
  | nil => rfl
  | cons p t ih =>
      unfold removeA lookupA at ih ⊢
      by_cases hp : p.1 = k
      · have hb : (p.1 != k) = false := by simp [hp]
        simp [List.filter, hb, ih]
      · have hb : (p.1 != k) = true := by simp [hp]
        have hbeq : (p.1 == k) = false := beq_eq_false_iff_ne.mpr hp
        simp [List.filter, hb, List.find?, hbeq, ih]

/-- C7 counterexample: reset logs two rows to the conversation store and
the next chat reloads them, so the external classifier sees a transcript
a brand-new user does not have, and the replies differ. -/
theorem c7_counterexample : ¬ C7Stated := by
  intro h
  have hx := h o7 st7a 7 "abc12345" "hi"
  have h1 : (serviceChat o7 (reset_conversation st7a 7 "abc12345").1 7 "hi").2.response
      = "Your cart is empty. Would you like to browse some products?" := by decide
  have h2 : (serviceChat o7 (freshFor st7a 7) 7 "hi").2.response = "Hello there!" := by
    decide
  rw [hx, h2] at h1
  exact absurd h1 (by decide)

/-- C7 amended: reset removes the user's in-memory context, so a later
chat starts from a fresh slot state and empty lastProductsShown exactly
like a brand-new user; and a chat turn depends on the service state only
through the user's stored context, the user's persisted conversation
rows, the user's cart, and the product table — so two states agreeing on
those (both without a stored context) give identical results.  History
persisted before the reset, including the logged reset exchange, is
reloaded and can still influence replies. -/
theorem c7_reset_clears_memory (st : ServiceState) (uid : Nat) (sid : String) :
    lookupA (reset_conversation st uid sid).1.contexts uid = none ∧
    (∀ (o : ClientOracle) (st1 st2 : ServiceState) (m : String),
      lookupA st1.contexts uid = none → lookupA st2.contexts uid = none →
      rowsFor st1.conversations uid = rowsFor st2.conversations uid →
      lookupA st1.carts uid = lookupA st2.carts uid →
      st1.products = st2.products →
      (serviceChat o st1 uid m).2 = (serviceChat o st2 uid m).2) := by
  constructor
  · exact lookupA_removeA st.contexts uid
  · intro o st1 st2 m h1 h2 h3 h4 h5
    unfold serviceChat
    rw [h1, h2, h3, h4, h5]

/-- C7 amended witness: the reset state has no stored context for user
7, and a state holding only another user's context chats identically to
the empty state. -/
theorem c7_reset_clears_memory_witness :
    lookupA (reset_conversation st7a 7 "abc12345").1.contexts 7 = none ∧
    (serviceChat o7 ({} : ServiceState) 7 "hi").2
      = (serviceChat o7 ({ contexts := [(9, { user_id := 9 })] } : ServiceState) 7 "hi").2 :=
  ⟨(c7_reset_clears_memory st7a 7 "abc12345").1,
   (c7_reset_clears_memory ({} : ServiceState) 7 "x").2 o7 {}
     { contexts := [(9, { user_id := 9 })] } "hi" rfl (by decide) rfl rfl rfl⟩

/-- C1: for every slot state, `SlotFillingState.check_completeness` returns
true iff `category` is a non-empty string and at least one of `style` and
`color` is a non-empty string; `price_range` and `additional_attributes`
(and the unused `is_complete` flag) never affect the outcome. -/
theorem c1_check_completeness (s : SlotFillingState) :
    (s.check_completeness = true ↔
      ((∃ t, s.category = some t ∧ t ≠ "") ∧
        ((∃ t, s.style = some t ∧ t ≠ "") ∨ (∃ t, s.color = some t ∧ t ≠ "")))) ∧
    (∀ pr aa ic,
      (SlotFillingState.mk s.category s.style s.color pr aa ic).check_completeness
        = s.check_completeness) := by
  obtain ⟨cat, sty, col, pr, aa, ic⟩ := s
  constructor
  · unfold SlotFillingState.check_completeness pyAnd pyOr
    cases cat <;> cases sty <;> cases col <;>
      split_ifs <;> simp_all [pyTruthy, String.isEmpty_iff, isEmpty_false_iff]
  · intro pr2 aa2 ic2
    rfl

/-- C4 counterexample: in "black 200" the numeric token 200 has no
trailing k, yet the code scales by 1000 because the letter k occurs in
"black", producing {160000, 240000} where the claim demands {160, 240}. -/
theorem c4_counterexample : ¬ C4Stated := by
  intro h
  have hrun : firstDigitRun (pyLower "black 200").toList = some ['2', '0', '0'] := by
    decide
  have hx := h "black 200" ['2', '0', '0'] hrun
  have hk : containsChar 'k' (pyLower "black 200") = true := by decide
  have htr : firstRunTrailingK (pyLower "black 200").toList = false := by decide
  have hn : natOfDigits ['2', '0', '0'] = 200 := by decide
  simp only [fallback_extract_attributes, claimPriceValue, hrun, hk, htr, hn] at hx
  norm_num at hx

/-- C4 amended: for every message containing a numeric token, the
fallback extractor widens the token value to the ±20 percent range
`[0.8v, 1.2v]`, where v is the value of the first numeric run multiplied
by 1000 exactly when the letter k occurs anywhere in the lowercased
message (not only when it trails the token). -/
theorem c4_price_heuristic (message : String) (ds : List Char)
    (h : firstDigitRun (pyLower message).toList = some ds) :
    (fallback_extract_attributes message).price_range =
      some { lo := (natOfDigits ds : ℚ)
                * (if containsChar 'k' (pyLower message) then 1000 else 1) * 8 / 10,
             hi := (natOfDigits ds : ℚ)
                * (if containsChar 'k' (pyLower message) then 1000 else 1) * 12 / 10 } := by
  simp only [fallback_extract_attributes, h]
  cases hk : containsChar 'k' (pyLower message) <;> simp [hk]

/-- C4 witness: "around 200k" yields the price range {160000, 240000}. -/
theorem c4_price_heuristic_witness :
    firstDigitRun (pyLower "around 200k").toList = some ['2', '0', '0'] ∧
    (fallback_extract_attributes "around 200k").price_range =
      some { lo := 160000, hi := 240000 } := by
  refine ⟨by decide, ?_⟩
  rw [c4_price_heuristic "around 200k" ['2', '0', '0'] (by decide)]
  have hk : containsChar 'k' (pyLower "around 200k") = true := by decide
  have hn : natOfDigits ['2', '0', '0'] = 200 := by decide
  simp only [hk, hn]
  norm_num

/-- C3: the fallback intent classifier is a pure function of the message
agreeing with the priority rule table the spec enumerates (cart/basket
with add/put, then remove/delete, then bare cart; product/item plus a
digit; the six search keywords; else friendly chat at 0.7). -/
theorem c3_fallback_intent_rules (m : String) :
    fallback_intent_classification m = claimIntentOf m := by
  unfold fallback_intent_classification claimIntentOf claimIntentRules
  rw [anyIdSix]
  exact intentRuleTable _ _ _ _ _ _ _ _ _ _ _

end WebApi
